import Mathlib

/-!
Verification of the SQL_Sketchbook query-runner core.

The definitions below are a shallow embedding of the Python sources:

* `src/learner.py` — `SQLLearner.execute_query`, `show_lessons` /
  `run_lesson` and the lesson methods, `interactive_mode`, and `main`;
* `src/python/sql000.py` — the duplicate-insert error-handling scenario
  (lines 140-151) and the employees sample data;
* `src/python/aw_db00.py` (lines 40-71) and `src/python/aw_db.py`
  (lines 36-69) — the guarded sample-data inserts of the two
  schema-seeding scripts.

The embedded sqlite engine is treated as a black box, as the design
document treats it: an `Engine` packages the `cursor.execute` call,
returning either a typed error or a new database state together with a
cursor (column descriptor, fetched rows, DB-API rowcount).  Concrete
miniature engines instantiate the theorems on the scenarios that the
specification names.  Python string methods are embedded as executable
functions on character lists so that every statement can be evaluated on
concrete inputs.
-/

namespace SQLSketchbook

/-- Decidable equality for `Except`, so that engine responses can be
evaluated on concrete inputs. -/
instance {ε α : Type} [DecidableEq ε] [DecidableEq α] : DecidableEq (Except ε α) :=
  fun a b =>
    match a, b with
    | .error e1, .error e2 =>
        if h : e1 = e2 then .isTrue (by rw [h]) else .isFalse (by simp [h])
    | .ok v1, .ok v2 =>
        if h : v1 = v2 then .isTrue (by rw [h]) else .isFalse (by simp [h])
    | .error _, .ok _ => .isFalse (by simp)
    | .ok _, .error _ => .isFalse (by simp)

/-! ### Python string primitives -/

/-- Python `str.strip()`: remove leading and trailing whitespace. -/
def pyStrip (s : List Char) : List Char :=
  ((s.dropWhile Char.isWhitespace).reverse.dropWhile Char.isWhitespace).reverse

/-- Python `str.upper()` (ASCII case mapping, which is all the sources use). -/
def pyUpper (s : List Char) : List Char := s.map Char.toUpper

/-- Python `str.lower()` (ASCII case mapping, which is all the sources use). -/
def pyLower (s : List Char) : List Char := s.map Char.toLower

/-- Python `str.startswith(pre)`. -/
def pyStartswith (s pre : List Char) : Bool := List.isPrefixOf pre s

/-- Python `str.endswith(suf)`. -/
def pyEndswith (s suf : List Char) : Bool := List.isSuffixOf suf s

/-! ### The query executor (`src/learner.py`, `SQLLearner.execute_query`) -/

/-- A value appearing in a result row (sqlite dynamic typing, restricted
to the cases the scenarios need). -/
inductive Value where
  | int (n : Int)
  | text (s : String)
  | null
  deriving DecidableEq, Repr

/-- The state of a sqlite cursor after a successful `cursor.execute`:
`description` holds the column names, `results` what `fetchall` would
return, `rowcount` the DB-API rowcount attribute. -/
structure Cursor where
  description : List String
  results : List (List Value)
  rowcount : Int
  deriving DecidableEq, Repr

/-- The `sqlite3` error taxonomy relevant to the repository:
`IntegrityError` (constraint violations), `OperationalError`
(syntax and operational failures), and the remaining `DatabaseError`s.
All are subclasses of `sqlite3.Error`, the class caught by
`execute_query`. -/
inductive SqlError where
  | integrity (msg : String)
  | operational (msg : String)
  | other (msg : String)
  deriving DecidableEq, Repr

/-- The black-box embedded engine over an abstract database state `Db`:
`exec` is `cursor.execute`, which either fails with a typed error
(leaving the state unchanged) or yields the updated in-memory state and
a cursor. -/
structure Engine (Db : Type) where
  exec : String → Db → Except SqlError (Db × Cursor)

/-- Connection state: `mem` is the view seen through the connection
(including uncommitted changes), `disk` the committed backing store,
`isOpen` whether the connection is open. -/
structure ConnState (Db : Type) where
  mem : Db
  disk : Db
  isOpen : Bool
  deriving DecidableEq, Repr

/-- Embeds `learner.py` line 42: `query.strip().upper().startswith('SELECT')`. -/
def isSelectQuery (query : String) : Bool :=
  pyStartswith (pyUpper (pyStrip query.data)) "SELECT".data

/-- What one call to `SQLLearner.execute_query` reports: a tabular result
(read branch), an affected-row count (write branch), or a caught SQL
error. -/
inductive ExecOutcome where
  | rows (columns : List String) (results : List (List Value))
  | affected (count : Int)
  | sqlError (e : SqlError)
  deriving DecidableEq, Repr

/-- Embeds `learner.py` lines 36-66, `SQLLearner.execute_query`.  The
cursor executes the query; if that raises, the `except sqlite3.Error`
handler reports the error and leaves everything untouched.  On success,
a query whose stripped upper-cased text starts with `SELECT` has its
rows fetched and its column names read from the descriptor; every other
query is followed by `conn.commit()` and an affected-row report of
`cursor.rowcount`. -/
def execute_query {Db : Type} (engine : Engine Db) (st : ConnState Db)
    (query : String) : ExecOutcome × ConnState Db :=
  match engine.exec query st.mem with
  | .error e => (.sqlError e, st)
  | .ok (mem2, cur) =>
      if isSelectQuery query then
        (.rows cur.description cur.results, { st with mem := mem2 })
      else
        (.affected cur.rowcount, { mem := mem2, disk := mem2, isOpen := st.isOpen })

/-! ### Concrete engines for the named scenarios -/

/-- A concrete engine modelling the sqlite response to the pragma
scenario of the design document: `PRAGMA table_info(nonexistent_table);`
executes successfully, producing the standard pragma column set, zero
rows, and DB-API rowcount `-1` (sqlite reports `-1` for statements that
are not DML).  Any other text is rejected. -/
def pragmaEngine : Engine Unit where
  exec q db :=
    if q = "PRAGMA table_info(nonexistent_table);" then
      .ok (db, { description := ["cid", "name", "type", "notnull", "dflt_value", "pk"],
                 results := [], rowcount := -1 })
    else
      .error (.operational "syntax error")

/-- A fresh connection over the trivial database for `pragmaEngine`. -/
def pragmaConn : ConnState Unit := { mem := (), disk := (), isOpen := true }

/-- One row of the employees table created in `src/python/sql000.py`
lines 27-35: id (INTEGER PRIMARY KEY), name, department, salary,
hire date. -/
structure EmpRow where
  id : Int
  name : String
  department : String
  salary : Int
  hireDate : String
  deriving DecidableEq, Repr

/-- The five employee rows inserted by `src/python/sql000.py` lines 50-56. -/
def employeesData : List EmpRow :=
  [⟨1, "Alice", "HR", 55000, "2020-01-15"⟩,
   ⟨2, "Bob", "IT", 72000, "2019-03-23"⟩,
   ⟨3, "Charlie", "Finance", 68000, "2021-07-11"⟩,
   ⟨4, "Diana", "IT", 80000, "2018-09-30"⟩,
   ⟨5, "Ethan", "HR", 52000, "2022-02-01"⟩]

/-- Column names of the employees table. -/
def empColumns : List String := ["id", "name", "department", "salary", "hire_date"]

/-- The result row a SELECT over employees yields for one stored row. -/
def empToValues (r : EmpRow) : List Value :=
  [.int r.id, .text r.name, .text r.department, .int r.salary, .text r.hireDate]

/-- sqlite INSERT into employees: the INTEGER PRIMARY KEY on `id` makes
a duplicate id fail with an IntegrityError (UNIQUE constraint), leaving
the table unchanged; otherwise the row is appended and the rowcount of
the cursor is 1. -/
def empInsert (r : EmpRow) (db : List EmpRow) :
    Except SqlError (List EmpRow × Cursor) :=
  if db.any (fun q => q.id == r.id) then
    .error (.integrity "UNIQUE constraint failed: employees.id")
  else
    .ok (db ++ [r], { description := [], results := [], rowcount := 1 })

/-- The row of the duplicate insert attempted at `src/python/sql000.py`
line 142 (id 1 is already taken by Alice). -/
def fakeEmpRow : EmpRow := ⟨1, "Fake", "IT", 99999, "2024-01-01"⟩

/-- The statement text of `src/python/sql000.py` line 142 (SQL quote
characters written with hex escapes). -/
def dupInsertStmt : String :=
  "INSERT INTO employees VALUES (1, \x27Fake\x27, \x27IT\x27, 99999, \x272024-01-01\x27)"

/-- A concrete engine modelling the sqlite black box on the employees
table of `src/python/sql000.py`: it understands the duplicate insert of
line 142 and the SELECT of line 76. -/
def sqlEngine000 : Engine (List EmpRow) where
  exec q db :=
    if q = dupInsertStmt then
      empInsert fakeEmpRow db
    else if q = "SELECT * FROM employees" then
      .ok (db, { description := empColumns, results := db.map empToValues,
                 rowcount := -1 })
    else
      .error (.operational "syntax error")

/-- The connection state after `sql000.py` has seeded and committed the
employees sample data. -/
def sql000Conn : ConnState (List EmpRow) :=
  { mem := employeesData, disk := employeesData, isOpen := true }

/-- The cursor produced by `SELECT * FROM employees` over the seeded
employees table. -/
def empSelectCursor : Cursor :=
  { description := empColumns, results := employeesData.map empToValues,
    rowcount := -1 }

/-! ### The lesson catalog (`src/learner.py`, `show_lessons`, `run_lesson`
and the ten lesson methods)

Following the design document, the hardcoded dispatch table of
`run_lesson` is modelled as a lookup from id to a data record holding
the title printed by `show_lessons`, the SQL text the lesson method
executes, and the hint it prints (every lesson method is
print-title/run-query/print-hint, differing only in those three
strings).  The SQL quote characters of the sources are written with hex
escapes. -/

/-- A lesson record: title (from `show_lessons`), the fixed SQL text the
lesson method runs, and the hint it prints afterwards. -/
structure Lesson where
  title : String
  query : String
  hint : String
  deriving DecidableEq, Repr

/-- Lesson 1, `lesson_basic_select` (`learner.py` lines 121-129). -/
def lesson_basic_select : Lesson :=
  { title := "Basic SELECT - View all inventory",
    query := "SELECT * FROM inventory LIMIT 5;",
    hint := "Try it yourself: SELECT item_name, sale_price FROM inventory;" }

/-- Lesson 2, `lesson_where_clause` (`learner.py` lines 131-143). -/
def lesson_where_clause : Lesson :=
  { title := "WHERE clause - Filter low stock items",
    query := "\n        SELECT item_name, quantity_in_stock, reorder_level\n        FROM inventory\n        WHERE quantity_in_stock < reorder_level;\n        ",
    hint := "Try: Find items in category \x27Tools\x27" }

/-- Lesson 3, `lesson_order_by` (`learner.py` lines 145-158). -/
def lesson_order_by : Lesson :=
  { title := "ORDER BY - Sort by price",
    query := "\n        SELECT item_name, sale_price\n        FROM inventory\n        ORDER BY sale_price DESC\n        LIMIT 5;\n        ",
    hint := "Try: Sort by profit margin (sale_price - cost_price)" }

/-- Lesson 4, `lesson_aggregates` (`learner.py` lines 160-176). -/
def lesson_aggregates : Lesson :=
  { title := "Aggregate Functions - COUNT, SUM, AVG",
    query := "\n        SELECT\n            COUNT(*) as total_items,\n            SUM(quantity_in_stock) as total_stock,\n            AVG(sale_price) as avg_price,\n            MAX(sale_price) as highest_price,\n            MIN(sale_price) as lowest_price\n        FROM inventory;\n        ",
    hint := "Try: Calculate total inventory value (quantity * sale_price)" }

/-- Lesson 5, `lesson_group_by` (`learner.py` lines 178-194). -/
def lesson_group_by : Lesson :=
  { title := "GROUP BY - Sales by category",
    query := "\n        SELECT\n            category,\n            COUNT(*) as item_count,\n            AVG(sale_price) as avg_price\n        FROM inventory\n        GROUP BY category\n        ORDER BY item_count DESC;\n        ",
    hint := "Try: GROUP BY supplier to see supplier statistics" }

/-- Lesson 6, `lesson_joins` (`learner.py` lines 196-213). -/
def lesson_joins : Lesson :=
  { title := "JOINs - Combine inventory and orders",
    query := "\n        SELECT\n            i.item_name,\n            o.customer_name,\n            o.quantity_ordered,\n            o.total_price\n        FROM orders o\n        JOIN inventory i ON o.item_id = i.item_id\n        LIMIT 5;\n        ",
    hint := "Try: Find total quantity ordered per item" }

/-- Lesson 7, `lesson_subqueries` (`learner.py` lines 215-227). -/
def lesson_subqueries : Lesson :=
  { title := "Subqueries - Items never ordered",
    query := "\n        SELECT item_name, quantity_in_stock\n        FROM inventory\n        WHERE item_id NOT IN (SELECT DISTINCT item_id FROM orders);\n        ",
    hint := "Try: Find items with above-average price" }

/-- Lesson 8, `lesson_case` (`learner.py` lines 229-248). -/
def lesson_case : Lesson :=
  { title := "CASE statements - Price categories",
    query := "\n        SELECT\n            item_name,\n            sale_price,\n            CASE\n                WHEN sale_price < 10 THEN \x27Budget\x27\n                WHEN sale_price < 50 THEN \x27Mid-range\x27\n                ELSE \x27Premium\x27\n            END as price_category\n        FROM inventory\n        LIMIT 10;\n        ",
    hint := "Try: Create stock status (Low/Medium/High)" }

/-- Lesson 9, `lesson_window_functions` (`learner.py` lines 250-266). -/
def lesson_window_functions : Lesson :=
  { title := "Window Functions - Ranking",
    query := "\n        SELECT\n            item_name,\n            category,\n            sale_price - cost_price as profit,\n            RANK() OVER (PARTITION BY category ORDER BY sale_price - cost_price DESC) as profit_rank\n        FROM inventory\n        ORDER BY category, profit_rank;\n        ",
    hint := "Try: Use ROW_NUMBER() to number all items" }

/-- Lesson 10, `lesson_cte` (`learner.py` lines 268-293). -/
def lesson_cte : Lesson :=
  { title := "CTEs - Common Table Expressions",
    query := "\n        WITH profitable_items AS (\n            SELECT\n                item_id,\n                item_name,\n                sale_price - cost_price as profit\n            FROM inventory\n            WHERE sale_price - cost_price > 20\n        )\n        SELECT\n            pi.item_name,\n            pi.profit,\n            COUNT(o.order_id) as times_ordered\n        FROM profitable_items pi\n        LEFT JOIN orders o ON pi.item_id = o.item_id\n        GROUP BY pi.item_id, pi.item_name, pi.profit\n        ORDER BY profit DESC;\n        ",
    hint := "Try: Create a CTE for low stock items and join with orders" }

/-- The fixed ten-entry catalog keyed by lesson number, embedding the
dictionaries at `learner.py` lines 82-93 and 102-113 (both have exactly
the integer keys 1 to 10). -/
def lessonCatalog (id : Int) : Option Lesson :=
  if id = 1 then some lesson_basic_select
  else if id = 2 then some lesson_where_clause
  else if id = 3 then some lesson_order_by
  else if id = 4 then some lesson_aggregates
  else if id = 5 then some lesson_group_by
  else if id = 6 then some lesson_joins
  else if id = 7 then some lesson_subqueries
  else if id = 8 then some lesson_case
  else if id = 9 then some lesson_window_functions
  else if id = 10 then some lesson_cte
  else none

/-- What `run_lesson` does with a lesson number. -/
inductive LessonOutcome where
  | ran (l : Lesson)
  | invalidLesson
  deriving DecidableEq, Repr

/-- Embeds `learner.py` lines 100-118, `SQLLearner.run_lesson`: if the
number is a key of the dictionary the lesson runs, otherwise the method
prints the invalid-lesson message (no exception is raised). -/
def run_lesson (lesson_num : Int) : LessonOutcome :=
  match lessonCatalog lesson_num with
  | some l => .ran l
  | none => .invalidLesson

/-! ### The interactive session loop (`src/learner.py`,
`SQLLearner.interactive_mode`, lines 295-317) -/

/-- One console event seen by the loop body of `interactive_mode`: a
line of input, or a KeyboardInterrupt raised at the prompt. -/
inductive Event where
  | line (s : String)
  | interrupt
  deriving DecidableEq, Repr

/-- The result of one iteration of the `while True` loop: leave the loop
(the `break` on `exit`), or go round again with a new buffer, possibly
having dispatched a statement to `execute_query`. -/
inductive LoopStep where
  | exited
  | next (query_buffer : String) (dispatched : Option String)
  deriving DecidableEq, Repr

/-- Embeds `learner.py` lines 302-317, one iteration of the
`interactive_mode` loop.  A line equal to `exit` after strip and lower
breaks out of the loop before anything is appended; otherwise the line
is appended to the buffer after a separating space, and when the
stripped line ends with a semicolon the stripped buffer is dispatched to
`execute_query` and the buffer is cleared.  A KeyboardInterrupt clears
the buffer and continues the loop. -/
def interactiveStep (query_buffer : String) (ev : Event) : LoopStep :=
  match ev with
  | .line l =>
      if pyLower (pyStrip l.data) = "exit".data then
        .exited
      else
        let buf := query_buffer ++ " " ++ l
        if pyEndswith (pyStrip l.data) ";".data then
          .next "" (some (String.mk (pyStrip buf.data)))
        else
          .next buf none
  | .interrupt => .next "" none

/-- Observable outcome of running `interactive_mode` on a list of
console events: the statements dispatched to `execute_query` in order,
whether the loop was left through the `exit` break, and the final
buffer contents. -/
structure RunResult where
  dispatched : List String
  exitedLoop : Bool
  query_buffer : String
  deriving DecidableEq, Repr

/-- Runs the `interactive_mode` loop from a given buffer over a list of
console events, folding `interactiveStep`. -/
def interactiveRun (query_buffer : String) : List Event → RunResult
  | [] => ⟨[], false, query_buffer⟩
  | ev :: evs =>
      match interactiveStep query_buffer ev with
      | .exited => ⟨[], true, query_buffer⟩
      | .next buf none => interactiveRun buf evs
      | .next buf (some q) =>
          let r := interactiveRun buf evs
          ⟨q :: r.dispatched, r.exitedLoop, r.query_buffer⟩

/-! ### `main` (`src/learner.py`, lines 362-380) -/

/-- The observable calls made by `main`. -/
inductive MainEvent where
  | connectCall
  | menuCall
  | closeCall
  | sysExitOne
  deriving DecidableEq, Repr

/-- How `main_menu` ends: a normal return (menu choice 7), or an
exception escaping it. -/
inductive MenuOutcome where
  | finished
  | raised (msg : String)
  deriving DecidableEq, Repr

/-- Python `try/finally`: the cleanup events run after the body whether
or not the body raised, and the body outcome (value or re-raised
exception) is preserved. -/
def tryFinally (body : Except String Unit × List MainEvent)
    (cleanup : List MainEvent) : Except String Unit × List MainEvent :=
  (body.1, body.2 ++ cleanup)

/-- Embeds `SQLLearner.close` (`learner.py` lines 30-34): the connection
is closed exactly when a connection object is present. -/
def closeEvents (connIsSet : Bool) : List MainEvent :=
  if connIsSet then [.closeCall] else []

/-- Embeds `main` (`learner.py` lines 362-380): connect once; on
success run `main_menu` inside `try/finally` with `close` in the finally
block (after a successful `connect`, `self.conn` is set); on connection
failure report and call `sys.exit(1)`.  The returned `Except` is the
exception escaping `main`, if any. -/
def mainRun (connectOk : Bool) (menu : MenuOutcome) :
    Except String Unit × List MainEvent :=
  if connectOk then
    let menuBody : Except String Unit × List MainEvent :=
      match menu with
      | .finished => (.ok (), [.menuCall])
      | .raised msg => (.error msg, [.menuCall])
    let protectedRun := tryFinally menuBody (closeEvents true)
    (protectedRun.1, .connectCall :: protectedRun.2)
  else
    (.ok (), [.connectCall, .sysExitOne])

/-! ### The schema-seeding scripts (`src/python/aw_db00.py` and
`src/python/aw_db.py`) -/

/-- A Territory row: TerritoryID, Name, CountryRegion. -/
abbrev TerritoryRow := Int × String × String

/-- A Customer row: CustomerID, FirstName, LastName, TerritoryID. -/
abbrev CustomerRow := Int × String × String × Int

/-- A SalesOrderHeader row: SalesOrderID, CustomerID, OrderDate,
TotalDue.  The REAL literals of the scripts are stored, never computed
with, so TotalDue is carried as an exact rational. -/
abbrev OrderRow := Int × Int × String × ℚ

/-- The contents of the three tables of `mini_aw.sqlite`. -/
structure AwDb where
  territory : List TerritoryRow
  customer : List CustomerRow
  salesOrderHeader : List OrderRow
  deriving DecidableEq

/-- The territories sample list (`aw_db00.py` lines 42-48, identical in
`aw_db.py` lines 38-44). -/
def territoriesData : List TerritoryRow :=
  [(1, "Northwest", "United States"),
   (2, "Northeast", "United States"),
   (3, "Central", "United States"),
   (4, "Canada", "Canada"),
   (5, "France", "France")]

/-- The customers sample list (`aw_db00.py` lines 54-59, identical in
`aw_db.py` lines 50-55). -/
def customersData : List CustomerRow :=
  [(1, "John", "Smith", 4),
   (2, "Marie", "Dubois", 5),
   (3, "Alex", "Johnson", 1),
   (4, "Robert", "King", 4)]

/-- The orders sample list (`aw_db00.py` lines 65-70, identical in
`aw_db.py` lines 61-66). -/
def ordersData : List OrderRow :=
  [(1001, 1, "2024-01-05", 120.50),
   (1002, 2, "2024-01-01", 89.99),
   (1003, 4, "2024-02-01", 220.00),
   (1004, 2, "2024-03-03", 150.00)]

/-- Embeds the guarded sample-data inserts of `aw_db00.py` lines 40-71
(the same logic appears in `aw_db.py` lines 36-69): each `executemany`
INSERT runs only when the preceding `SELECT COUNT(*)` reports the table
empty, and `executemany` appends the listed rows. -/
def seedSampleData (db : AwDb) : AwDb :=
  { territory :=
      if db.territory.length = 0 then db.territory ++ territoriesData
      else db.territory,
    customer :=
      if db.customer.length = 0 then db.customer ++ customersData
      else db.customer,
    salesOrderHeader :=
      if db.salesOrderHeader.length = 0 then db.salesOrderHeader ++ ordersData
      else db.salesOrderHeader }

/-! ## Theorems -/

set_option maxRecDepth 8000 in
/-- Claim C1 (code bug in `execute_query`): the classification at
`learner.py` line 42 checks only `SELECT`, so
`PRAGMA table_info(nonexistent_table);` — and equally the
`WITH ... SELECT` text of lesson 10 — is sent down the write branch,
and the executor reports an affected-row count (sqlite rowcount `-1`)
instead of a `Rows` result with the pragma column set.  This
contradicts the documented purpose of `show_schema` and `lesson_cte`,
both of which pass such texts to `execute_query` in order to display
their rows. -/
theorem pragma_classified_write :
    isSelectQuery "PRAGMA table_info(nonexistent_table);" = false ∧
    (execute_query pragmaEngine pragmaConn
        "PRAGMA table_info(nonexistent_table);").1 = .affected (-1) ∧
    (execute_query pragmaEngine pragmaConn
        "PRAGMA table_info(nonexistent_table);").1
      ≠ .rows ["cid", "name", "type", "notnull", "dflt_value", "pk"] [] ∧
    isSelectQuery lesson_cte.query = false := by
  refine ⟨by decide, by decide, by decide, by decide⟩

/-- Claim C2: when the engine fails on a statement, `execute_query`
returns the typed error (the caught `sqlite3.Error`) instead of letting
it escape, leaves the connection state — including its open flag —
untouched, and a subsequent statement the engine accepts still executes
normally on that connection. -/
theorem query_error_returned_conn_usable (Db : Type) (engine : Engine Db)
    (st : ConnState Db) (q : String) (e : SqlError)
    (h : engine.exec q st.mem = .error e) :
    execute_query engine st q = (.sqlError e, st) ∧
    (execute_query engine st q).2.isOpen = st.isOpen ∧
    ∀ (q2 : String) (db2 : Db) (cur2 : Cursor),
      engine.exec q2 st.mem = .ok (db2, cur2) →
      (execute_query engine (execute_query engine st q).2 q2).1 =
        (if isSelectQuery q2 then ExecOutcome.rows cur2.description cur2.results
         else ExecOutcome.affected cur2.rowcount) := by
  have hq : execute_query engine st q = (.sqlError e, st) := by
    simp [execute_query, h]
  refine ⟨hq, by rw [hq], ?_⟩
  intro q2 db2 cur2 h2
  rw [hq]
  simp only [execute_query, h2]
  split <;> rfl

/-- Witness for C2 on the scenario of `src/python/sql000.py` lines
140-151: inserting a duplicate primary key into the seeded employees
table returns the constraint error and leaves the connection unchanged,
and the SELECT of line 76 still succeeds afterwards. -/
theorem query_error_returned_conn_usable_witness :
    execute_query sqlEngine000 sql000Conn dupInsertStmt
      = (.sqlError (.integrity "UNIQUE constraint failed: employees.id"),
         sql000Conn) ∧
    (execute_query sqlEngine000
        (execute_query sqlEngine000 sql000Conn dupInsertStmt).2
        "SELECT * FROM employees").1
      = .rows empColumns (employeesData.map empToValues) := by
  have h := query_error_returned_conn_usable (List EmpRow) sqlEngine000
    sql000Conn dupInsertStmt
    (.integrity "UNIQUE constraint failed: employees.id") (by decide)
  refine ⟨h.1, ?_⟩
  have h2 := h.2.2 "SELECT * FROM employees" employeesData empSelectCursor
    (by decide)
  rw [h2]
  decide

/-- Claim C3: a statement not classified as a read executes, is
committed immediately (the committed store and the connection view
coincide afterwards and equal the post-execution state), and is
reported as `Affected` with the rowcount of the cursor; when the engine
rowcount is the number of rows the statement changed (the DB-API
contract for DML), the reported count is exactly the change between the
backing store before and after the call. -/
theorem write_commits_and_reports_changed_rows (Db : Type)
    (engine : Engine Db) (changed : Db → Db → Int) (st : ConnState Db)
    (q : String) (db2 : Db) (cur : Cursor)
    (hw : isSelectQuery q = false)
    (hx : engine.exec q st.mem = .ok (db2, cur))
    (hsync : st.mem = st.disk)
    (hrc : cur.rowcount = changed st.mem db2) :
    (execute_query engine st q).1
      = .affected (changed st.disk (execute_query engine st q).2.disk) ∧
    (execute_query engine st q).2.disk = (execute_query engine st q).2.mem ∧
    (execute_query engine st q).2.disk = db2 := by
  have hq : execute_query engine st q
      = (.affected cur.rowcount, { mem := db2, disk := db2, isOpen := st.isOpen }) := by
    simp [execute_query, hx, hw]
  rw [hq]
  exact ⟨by rw [hrc, hsync], rfl, rfl⟩

/-- Witness for C3: inserting the row of `sql000.py` line 142 into an
empty employees table succeeds, is committed at once, and reports one
affected row — the number of rows the backing store gained. -/
theorem write_commits_and_reports_changed_rows_witness :
    (execute_query sqlEngine000 ⟨[], [], true⟩ dupInsertStmt).1
      = .affected 1 ∧
    (execute_query sqlEngine000 ⟨[], [], true⟩ dupInsertStmt).2.disk
      = (execute_query sqlEngine000 ⟨[], [], true⟩ dupInsertStmt).2.mem ∧
    (execute_query sqlEngine000 ⟨[], [], true⟩ dupInsertStmt).2.disk
      = [fakeEmpRow] := by
  have h := write_commits_and_reports_changed_rows (List EmpRow) sqlEngine000
    (fun a b => (b.length : Int) - (a.length : Int)) ⟨[], [], true⟩
    dupInsertStmt [fakeEmpRow] ⟨[], [], 1⟩
    (by decide) (by decide) rfl (by decide)
  refine ⟨?_, h.2.1, h.2.2⟩
  rw [h.1, h.2.2]
  decide

/-- Claim C4: the lesson lookup yields a lesson exactly for the integer
ids 1 to 10, and `run_lesson` reports an invalid lesson — rather than
failing — exactly on the ids outside that range. -/
theorem lesson_lookup_in_range_iff :
    ∀ id : Int,
      ((1 ≤ id ∧ id ≤ 10) ↔ (lessonCatalog id).isSome = true) ∧
      (run_lesson id = .invalidLesson ↔ ¬(1 ≤ id ∧ id ≤ 10)) := by
  intro id
  unfold run_lesson lessonCatalog
  split_ifs <;> simp_all
  omega

/-- Witness for C4 at the ids the specification lists: 3 is found,
while 0, 11 and -1 are reported invalid. -/
theorem lesson_lookup_in_range_iff_witness :
    (lessonCatalog 3).isSome = true ∧
    run_lesson 0 = .invalidLesson ∧
    run_lesson 11 = .invalidLesson ∧
    run_lesson (-1) = .invalidLesson :=
  ⟨(lesson_lookup_in_range_iff 3).1.mp (by decide),
   (lesson_lookup_in_range_iff 0).2.mpr (by decide),
   (lesson_lookup_in_range_iff 11).2.mpr (by decide),
   (lesson_lookup_in_range_iff (-1)).2.mpr (by decide)⟩

/-- Claim C5: on a line that is not the exit command, the loop
dispatches exactly when the stripped line ends with a semicolon, the
dispatched text being the stripped buffer with the line appended after
a separating space; consequently `SELECT 1;` on one line and the same
statement split as `SELECT` then `1;` both produce the single dispatch
`SELECT 1;`. -/
theorem dispatch_iff_line_ends_semicolon :
    (∀ (query_buffer l : String), pyLower (pyStrip l.data) ≠ "exit".data →
      interactiveStep query_buffer (.line l) =
        (if pyEndswith (pyStrip l.data) ";".data then
           LoopStep.next ""
             (some (String.mk (pyStrip (query_buffer ++ " " ++ l).data)))
         else
           LoopStep.next (query_buffer ++ " " ++ l) none)) ∧
    interactiveRun "" [.line "SELECT 1;"] = ⟨["SELECT 1;"], false, ""⟩ ∧
    interactiveRun "" [.line "SELECT", .line "1;"]
      = ⟨["SELECT 1;"], false, ""⟩ := by
  refine ⟨?_, by decide, by decide⟩
  intro query_buffer l h
  simp [interactiveStep, h]

/-- Witness for C5: the single line `SELECT 1;` is not the exit command
and yields the dispatch of `SELECT 1;` with a cleared buffer. -/
theorem dispatch_iff_line_ends_semicolon_witness :
    interactiveStep "" (.line "SELECT 1;")
      = LoopStep.next "" (some "SELECT 1;") := by
  have h := dispatch_iff_line_ends_semicolon.1 "" "SELECT 1;" (by decide)
  rw [h]
  decide

/-- Claim C6: from the start state of the loop (empty buffer), a line
equal to `exit` after strip and lower ends the session loop at once,
with nothing ever dispatched to the executor. -/
theorem exit_from_awaiting_closes :
    ∀ l : String, pyLower (pyStrip l.data) = "exit".data →
      interactiveRun "" [.line l] = ⟨[], true, ""⟩ := by
  intro l h
  simp [interactiveRun, interactiveStep, h]

/-- Witness for C6 on the literal line `exit`. -/
theorem exit_from_awaiting_closes_witness :
    interactiveRun "" [.line "exit"] = ⟨[], true, ""⟩ :=
  exit_from_awaiting_closes "exit" (by decide)

/-- Claim C7: a KeyboardInterrupt in the loop clears the accumulation
buffer, dispatches nothing, does not leave the loop, and the rest of
the session proceeds exactly as if started fresh with an empty
buffer. -/
theorem interrupt_discards_and_continues :
    ∀ (query_buffer : String) (evs : List Event),
      interactiveStep query_buffer .interrupt = .next "" none ∧
      interactiveRun query_buffer (.interrupt :: evs)
        = interactiveRun "" evs := by
  intro query_buffer evs
  exact ⟨rfl, rfl⟩

/-- Claim C8: whenever the connection is established, every run of
`main` performs exactly one connect, exactly one close, and the close
is the last call — both when `main_menu` returns normally and when an
exception escapes it (the `finally` path). -/
theorem connection_closed_on_every_exit :
    ∀ menu : MenuOutcome,
      ((mainRun true menu).2.count .connectCall = 1) ∧
      ((mainRun true menu).2.count .closeCall = 1) ∧
      ((mainRun true menu).2.getLast? = some .closeCall) ∧
      (∀ msg, (mainRun true (.raised msg)).1 = .error msg) := by
  intro menu
  cases menu with
  | finished => exact ⟨rfl, rfl, rfl, fun msg => rfl⟩
  | raised msg => exact ⟨rfl, rfl, rfl, fun msg2 => rfl⟩

/-- Claim C9: a line equal to `exit` (case-insensitive, stripped) is
honoured even while a statement is being accumulated: whatever the
buffer holds, the loop ends and the buffer is never dispatched to the
executor. -/
theorem exit_honoured_while_accumulating :
    ∀ (query_buffer l : String),
      pyLower (pyStrip l.data) = "exit".data →
      interactiveStep query_buffer (.line l) = .exited ∧
      ∀ evs : List Event,
        interactiveRun query_buffer (.line l :: evs)
          = ⟨[], true, query_buffer⟩ := by
  intro query_buffer l h
  have hstep : interactiveStep query_buffer (.line l) = .exited := by
    simp [interactiveStep, h]
  refine ⟨hstep, ?_⟩
  intro evs
  simp [interactiveRun, hstep]

/-- Witness for C9: with the partial statement `SELECT` buffered, the
line `EXIT` (upper case, padded) still ends the loop and nothing is
dispatched. -/
theorem exit_honoured_while_accumulating_witness :
    interactiveRun " SELECT" [.line "  EXIT "]
      = ⟨[], true, " SELECT"⟩ :=
  (exit_honoured_while_accumulating " SELECT" "  EXIT " (by decide)).2 []

/-- Claim C10: the guarded sample-data inserts make the seeding scripts
idempotent on table contents: a database whose three tables are already
non-empty is left exactly as it was, and running the script twice gives
the same contents as running it once, from any starting state. -/
theorem seed_inserts_guarded_idempotent :
    ∀ db : AwDb,
      (db.territory ≠ [] → db.customer ≠ [] → db.salesOrderHeader ≠ [] →
        seedSampleData db = db) ∧
      seedSampleData (seedSampleData db) = seedSampleData db := by
  intro db
  obtain ⟨t, c, o⟩ := db
  constructor
  · intro ht hc ho
    simp [seedSampleData, List.length_eq_zero, ht, hc, ho]
  · simp only [seedSampleData]
    split_ifs <;>
      simp_all [List.length_eq_zero, territoriesData, customersData, ordersData]

/-- Witness for C10: the freshly seeded sample database is a fixed
point of the script. -/
theorem seed_inserts_guarded_idempotent_witness :
    seedSampleData
        { territory := territoriesData, customer := customersData,
          salesOrderHeader := ordersData }
      = { territory := territoriesData, customer := customersData,
          salesOrderHeader := ordersData } :=
  (seed_inserts_guarded_idempotent _).1 (by decide) (by decide) (by decide)

end SQLSketchbook
